import Mathlib

/-!
Verification of the topic-clustering-and-labeling pipeline of
`Geo-Temporal-Trend-Detection-on-Reddit` (`src/analysis-model/model.py`),
via a shallow embedding in Lean 4.

Embedding conventions:
* Embedding vectors are sequences of exact rationals (`List ℚ`); the Euclidean
  distance ranking used by the representative selector is order-equivalent to
  the squared-distance ranking (square root is monotone on nonnegative
  numbers), and the theorems about ordering also state the square-root form.
* `np.argsort` is modelled by sorting the index range with a comparison on the
  stored keys; the source only depends on the result being some ascending
  arrangement of the indices.
* Python `str.strip()` (used only for emptiness tests and final label
  trimming) is modelled character-wise by `pyStrip`.
* The external generative service is an oracle mapping the attempt number to
  an outcome (success text, rate-limit signal, or other failure), which is what
  `model.generate_content` looks like from the retry loop's point of view.
-/

namespace RedditTrend

/-- A post record as it exists after preprocessing: the derived `text` column,
the `permalink` column, and the `topic` id column assigned by clustering
(`df` in `model.py`). -/
structure Row where
  text : String
  permalink : String
  topic : Nat
deriving DecidableEq, Repr

/-- An embedding vector: a sequence of exact rationals standing for the float
vector produced by the sentence encoder. -/
abbrev Vec := List ℚ

/-- One entry of a representative set: `{"text": ..., "permalink": ...}` as
built in `get_representative_posts`. -/
structure RepEntry where
  text : String
  permalink : String
deriving DecidableEq, Repr

/-! ### Text construction (model.py line 43)

`df["text"] = df["title"].fillna("") + " " + df["selftext"].fillna("")`:
a missing (`NaN`) field contributes the empty string, and the two fields are
joined with a single space. -/

/-- The derived `text` field of a raw post: `title.fillna("") + " " +
selftext.fillna("")`. A missing field is `none`. -/
def textOf (title selftext : Option String) : String :=
  title.getD "" ++ " " ++ selftext.getD ""

/-- The amended C7 reading of the text construction, written out case by
case: title and body joined by one separating space, a missing field
contributing the empty string; in particular both fields missing gives a
single space, not the empty string. -/
def textSpecC7 : Option String → Option String → String
  | some t, some b => t ++ " " ++ b
  | some t, none => t ++ " "
  | none, some b => " " ++ b
  | none, none => " "

/-! ### Language filter (model.py lines 45-47)

`df["language"] = df["text"].apply(lambda x: detect(x) if x.strip() else "unknown")`
`df = df[df["language"] == "en"]` -/

/-- Character-wise model of Python `str.strip()`: remove leading and trailing
whitespace. Structural, so it evaluates in the kernel. -/
def pyStrip (s : String) : String :=
  ((s.data.dropWhile Char.isWhitespace).reverse.dropWhile Char.isWhitespace).reverse.asString

/-- The `language` column: `detect(x) if x.strip() else "unknown"`. The
detector itself (langdetect) is an external black box, passed as a function
argument; it is applied only when the stripped text is nonempty. -/
def languageOf (detect : String → String) (x : String) : String :=
  if pyStrip x = "" then "unknown" else detect x

/-- A post record before language filtering: only the derived `text` and the
`permalink` matter to the filter. -/
structure PrePost where
  text : String
  permalink : String
deriving DecidableEq, Repr

/-- The language filter: `df = df[df["language"] == "en"]` where the
`language` column is `languageOf detect text`. -/
def filterEnglish (detect : String → String) (df : List PrePost) : List PrePost :=
  df.filter (fun r => languageOf detect r.text == "en")

/-! ### Vector arithmetic (numpy operations used by the selector) -/

/-- Componentwise difference of two vectors (`cluster_embeddings - centroid`). -/
def vecSub (v w : Vec) : Vec := List.zipWith (· - ·) v w

/-- Componentwise sum of two vectors (used to form the mean). -/
def vecAdd (v w : Vec) : Vec := List.zipWith (· + ·) v w

/-- Scale a vector by a rational. -/
def vecScale (c : ℚ) (v : Vec) : Vec := v.map (fun a => c * a)

/-- Squared Euclidean norm of a vector. -/
def sqNorm (v : Vec) : ℚ := (v.map (fun a => a * a)).sum

/-- Squared Euclidean distance between two vectors. The selector ranks by
`np.linalg.norm(... - centroid)`; since the square root is strictly monotone
on nonnegative numbers, ranking by `sqDist` is the same ranking. -/
def sqDist (v w : Vec) : ℚ := sqNorm (vecSub v w)

/-- `cluster_embeddings.mean(axis=0)`: the arithmetic mean of a list of
vectors (componentwise sum divided by the number of vectors). -/
def centroid : List Vec → Vec
  | [] => []
  | v :: rest => vecScale (1 / ((v :: rest).length : ℚ)) (rest.foldl vecAdd v)

/-- `np.argsort d`: the index range of `d` arranged so that the stored keys
are ascending. -/
def argsort (d : List ℚ) : List Nat :=
  List.insertionSort (fun i j => d.getD i 0 ≤ d.getD j 0) (List.range d.length)

/-! ### Representative selector (model.py lines 18-36) -/

/-- The rows of `df` masked by `df["topic"] == cluster_id`, zipped with their
embedding vectors (`mask`, `cluster_embeddings`, `cluster_texts`,
`cluster_permalinks` all restrict by this same boolean mask, so we keep the
row and its vector together). -/
def clusterPairs (cluster_id : Nat) (embeddings : List Vec) (df : List Row) :
    List (Row × Vec) :=
  (df.zip embeddings).filter (fun p => p.1.topic == cluster_id)

/-- `np.linalg.norm(cluster_embeddings - centroid, axis=1)` up to the
monotone square root: the squared distance of each member vector to the
cluster centroid. -/
def clusterDists (cluster_id : Nat) (embeddings : List Vec) (df : List Row) : List ℚ :=
  let ce := (clusterPairs cluster_id embeddings df).map Prod.snd
  ce.map (fun v => sqDist v (centroid ce))

/-- Python `s[:300]`: the first `n` characters of `s`. Written on the
character list so that it evaluates in the kernel. -/
def takeChars (s : String) (n : Nat) : String := (s.data.take n).asString

/-- `get_representative_posts(cluster_id, embeddings, df, max_posts)`
(model.py lines 18-36): restrict to the cluster's rows, return `[]` if the
cluster is empty, otherwise order the member indices by ascending distance to
the centroid, keep the first `max_posts`, and emit text (trimmed to 300
characters) and the permalink with the site prepended. -/
def get_representative_posts (cluster_id : Nat) (embeddings : List Vec) (df : List Row)
    (max_posts : Nat := 5) : List RepEntry :=
  let pairs := clusterPairs cluster_id embeddings df
  let cluster_texts := pairs.map (fun p => p.1.text)
  let cluster_permalinks := pairs.map (fun p => p.1.permalink)
  if cluster_texts.length = 0 then [] else
  let sorted_idx := argsort (clusterDists cluster_id embeddings df)
  (sorted_idx.take max_posts).map (fun i =>
    { text := takeChars (cluster_texts.getD i "") 300
      permalink := "https://reddit.com" ++ cluster_permalinks.getD i "" })

/-- The read-only pipeline state seen by `get_representative_posts`: the
post frame and the embedding matrix. -/
structure PipelineState where
  df : List Row
  embeddings : List Vec

/-- `get_representative_posts` as a state computation over the shared
pipeline state: every source statement only reads `df` and `embeddings`
(boolean-mask indexing, `.tolist()`, `mean`, `argsort` and arithmetic all
allocate fresh values), so the body is a sequence of reads followed by a
pure result. -/
def get_representative_posts_st (cluster_id : Nat) (max_posts : Nat) :
    StateM PipelineState (List RepEntry) := do
  let st ← get
  let pairs := clusterPairs cluster_id st.embeddings st.df
  let cluster_texts := pairs.map (fun p => p.1.text)
  let cluster_permalinks := pairs.map (fun p => p.1.permalink)
  if cluster_texts.length = 0 then
    pure []
  else
    let sorted_idx := argsort (clusterDists cluster_id st.embeddings st.df)
    pure ((sorted_idx.take max_posts).map (fun i =>
      { text := takeChars (cluster_texts.getD i "") 300
        permalink := "https://reddit.com" ++ cluster_permalinks.getD i "" }))

/-! ### Topic labeler (model.py lines 79-108)

`label_topic` sends a prompt to the generative model and retries on the
rate-limit exception with exponential backoff. The external service is an
oracle from the attempt number to an outcome; `time.sleep(delay)` is recorded
in a wait trace instead of blocking. -/

/-- Outcome of one `model.generate_content(prompt)` call as observed by the
retry loop: a response with text, the rate-limit exception
(`exceptions.ResourceExhausted`), or any other exception. -/
inductive ServiceResp where
  | success (text : String)
  | rateLimited
  | otherError (msg : String)
deriving DecidableEq, Repr

/-- The error surfaced to the caller of `label_topic`: the re-raised
rate-limit exception after exhausting retries, or the re-raised other
exception. -/
inductive LabelError where
  | rateLimit
  | other (msg : String)
deriving DecidableEq, Repr

/-- What a `label_topic` call produces: the result (label text or re-raised
error), how many attempts were made, and the trace of backoff sleeps (in
seconds) between consecutive attempts. -/
structure LabelOutcome where
  result : Except LabelError String
  attempts : Nat
  waits : List Nat
deriving Repr

/-- The retry loop body of `label_topic` (model.py lines 95-108):
`for i in range(retries):` attempt the call; on success return the stripped
response text; on `ResourceExhausted`, if `i < retries - 1` sleep `delay`
seconds, double `delay` and continue, otherwise re-raise; on any other
exception re-raise immediately. -/
def labelLoop (service : Nat → ServiceResp) (retries : Nat) (i delay : Nat)
    (waits : List Nat) : LabelOutcome :=
  match service i with
  | .success t => ⟨.ok (pyStrip t), i + 1, waits⟩
  | .rateLimited =>
      if h : i < retries - 1 then
        labelLoop service retries (i + 1) (delay * 2) (waits ++ [delay])
      else
        ⟨.error .rateLimit, i + 1, waits⟩
  | .otherError m => ⟨.error (.other m), i + 1, waits⟩
termination_by retries - i
decreasing_by omega

/-- `label_topic` with the source constants `retries = 5`, `delay = 5`. -/
def label_topic (service : Nat → ServiceResp) : LabelOutcome :=
  labelLoop service 5 0 5 []

/-! ### Cluster assigner (model.py lines 68-70)

`KMeans(n_clusters=NUM_TOPICS, random_state=42).fit_predict(embeddings)`. -/

/-- The configuration failure of the cluster assigner. -/
inductive ConfigurationError where
  | invalidK
deriving DecidableEq, Repr

/-- Modelled from the spec: the repository delegates clustering to
`sklearn.cluster.KMeans` (model.py lines 68-70), whose input validation is
library code, not repository code. Per the spec (§4.3, §7) `k` must be at
most the number of input vectors, and a larger `k` fails with a
`ConfigurationError`; the assignment itself is an abstract deterministic
function `kmeans` of the vectors and `k`. -/
def assignClusters (kmeans : List Vec → Nat → List Nat) (vectors : List Vec)
    (k : Nat) : Except ConfigurationError (List Nat) :=
  if k ≤ vectors.length then .ok (kmeans vectors k) else .error .invalidK

/-- The run from the clustering step onward: any later stage (labeling,
assembling) only happens on the `Except.ok` branch, so a configuration
failure aborts with no partial output. -/
def runClusterStage (kmeans : List Vec → Nat → List Nat) (vectors : List Vec)
    (k : Nat) (rest : List Nat → List Row) : Except ConfigurationError (List Row) :=
  (assignClusters kmeans vectors k).map rest

/-! ### Result assembler (model.py line 123)

`df["topic_label"] = df["topic"].map(topic_labels)`: a pandas `.map` over a
dict returns `NaN` for keys missing from the dict; the column is always
present. `NaN` is modelled by `Option.none`. -/

/-- A row of the final frame: the clustered row plus the joined
`topic_label` column (`none` models pandas `NaN` for an unlabeled topic). -/
structure LabeledRow where
  text : String
  permalink : String
  topic : Nat
  topic_label : Option String
deriving DecidableEq, Repr

/-- `df["topic_label"] = df["topic"].map(topic_labels)`: every row gets a
`topic_label` field holding the label found for its topic id, or `none` when
the map has no entry for that id. -/
def assignTopicLabels (df : List Row) (topic_labels : List (Nat × String)) :
    List LabeledRow :=
  df.map (fun r => ⟨r.text, r.permalink, r.topic, topic_labels.lookup r.topic⟩)

/-! ### Topic representatives map (model.py lines 113-121 and 133-137) -/

/-- `sorted(df["topic"].unique())`: the distinct topic ids occurring in the
frame, in ascending order. -/
def topicsOf (df : List Row) : List Nat :=
  List.insertionSort (· ≤ ·) (df.map (fun r => r.topic)).dedup

/-- The labeling loop's `topic_representatives` dict: one entry per distinct
topic id of the filtered frame, holding that topic's representative list
(`max_posts = 5`). -/
def topic_representatives (df : List Row) (embeddings : List Vec) :
    List (Nat × List RepEntry) :=
  (topicsOf df).map (fun cid => (cid, get_representative_posts cid embeddings df 5))

/-- `{int(k): v for k, v in topic_representatives.items()}`: every key is
converted to a plain integer (value-preserving) before JSON serialization. -/
def topic_representatives_clean (m : List (Nat × List RepEntry)) :
    List (Int × List RepEntry) :=
  m.map (fun p => ((p.1 : Int), p.2))

/-! ### Concrete fixtures used by the witness theorems -/

/-- A detector stub for witnesses: classifies every text as English. -/
def wDetect : String → String := fun _ => "en"

/-- A second detector stub, disagreeing with `wDetect` everywhere, used to
witness that empty-after-strip texts never consult the detector. -/
def wDetect₂ : String → String := fun _ => "fr"

/-- A two-post frame for the language-filter witness: one English post and
one whitespace-only post. -/
def wPre : List PrePost := [⟨"hello delhi", "/r/delhi/a"⟩, ⟨"  ", "/r/delhi/b"⟩]

/-- A three-row clustered frame for the selector witnesses: two rows in
topic 0 and one row in topic 1. -/
def wDf : List Row :=
  [⟨"metro fares up", "/r/delhi/p1", 0⟩,
   ⟨"new metro line", "/r/delhi/p2", 0⟩,
   ⟨"street food fest", "/r/delhi/p3", 1⟩]

/-- Embedding vectors for `wDf` (one per row). -/
def wEmb : List Vec := [[0], [2], [10]]

/-- A service oracle that rate-limits every attempt. -/
def wSvcAllRL : Nat → ServiceResp := fun _ => .rateLimited

/-- A service oracle that rate-limits attempts 1-4 and succeeds on attempt 5
(0-indexed attempt 4). -/
def wSvcLateOk : Nat → ServiceResp :=
  fun i => if i = 4 then .success " Delhi Metro " else .rateLimited

/-- A service oracle that rate-limits the first two attempts and then fails
with a non-rate-limit error. -/
def wSvcAuthFail : Nat → ServiceResp :=
  fun i => if i < 2 then .rateLimited else .otherError "auth"

/-- A clustering stub for the cluster-assigner witness: everything in
cluster 0. -/
def wKmeans : List Vec → Nat → List Nat := fun vs _ => List.replicate vs.length 0

/-- A one-vector corpus for the cluster-assigner witness. -/
def wVectors : List Vec := [[1], [2]]

/-- A label map for the result-assembler witness that has no entry for
topic 1. -/
def wLabels : List (Nat × String) := [(0, "Delhi Metro")]

end RedditTrend

namespace RedditTrend

/-! ## Theorems -/

/-- C7, counterexample: the claim says a post with both fields missing has
`text` equal to the empty string, but the source joins the two contributions
with a space, so the text is `" "`, which is not `""`. -/
theorem textOf_both_missing_ne_empty :
    textOf none none = " " ∧ textOf none none ≠ "" := by
  constructor
  · rfl
  · decide

/-- C7, amended: the derived `text` field is the title and the body joined by
a single separating space, a missing field contributing the empty string (so
it is never null, and both fields missing yields a single space). Proved by
comparing the source construction `textOf` with the case-by-case reading
`textSpecC7`. -/
theorem textOf_eq_textSpecC7 (title selftext : Option String) :
    textOf title selftext = textSpecC7 title selftext := by
  cases title <;> cases selftext <;> simp [textOf, textSpecC7, Option.getD]

/-- C5: after the language filter every retained post has language `"en"`;
a post whose stripped text is empty is classified `"unknown"` without the
detector being consulted (the classification is the same for any two
detectors), and such a post is never retained. -/
theorem language_filter_spec (detect detect₂ : String → String) (df : List PrePost) :
    (∀ r ∈ filterEnglish detect df, languageOf detect r.text = "en")
    ∧ (∀ x : String, pyStrip x = "" →
        languageOf detect x = "unknown" ∧ languageOf detect x = languageOf detect₂ x)
    ∧ (∀ r ∈ df, pyStrip r.text = "" → r ∉ filterEnglish detect df) := by
  refine ⟨?_, ?_, ?_⟩
  · intro r hr
    have := List.of_mem_filter hr
    simpa using this
  · intro x hx
    simp [languageOf, hx]
  · intro r _ hr hmem
    have := List.of_mem_filter hmem
    rw [languageOf, if_pos hr] at this
    simp at this

/-- Witness for C5: a whitespace-only post is classified `"unknown"`
independently of the detector, and is not retained by the filter. -/
theorem language_filter_spec_witness :
    (pyStrip "  " = "" ∧ languageOf wDetect "  " = "unknown")
    ∧ (⟨"  ", "/r/delhi/b"⟩ : PrePost) ∈ wPre
    ∧ (⟨"  ", "/r/delhi/b"⟩ : PrePost) ∉ filterEnglish wDetect wPre :=
  ⟨⟨by decide, ((language_filter_spec wDetect wDetect₂ wPre).2.1 "  " (by decide)).1⟩,
    by decide,
    (language_filter_spec wDetect wDetect₂ wPre).2.2 ⟨"  ", "/r/delhi/b"⟩ (by decide)
      (by decide)⟩

/-- C4: the cluster assigner accepts `k` at most the number of input vectors;
a larger `k` yields a `ConfigurationError`, and every stage guarded behind
the clustering result is skipped (no partial run). -/
theorem cluster_assigner_config_error (kmeans : List Vec → Nat → List Nat)
    (vectors : List Vec) (k : Nat) :
    (vectors.length < k →
      assignClusters kmeans vectors k = .error .invalidK
      ∧ ∀ rest, runClusterStage kmeans vectors k rest = .error .invalidK)
    ∧ (k ≤ vectors.length →
      assignClusters kmeans vectors k = .ok (kmeans vectors k)) := by
  constructor
  · intro h
    have hk : ¬k ≤ vectors.length := by omega
    exact ⟨by simp [assignClusters, hk],
      fun rest => by simp [runClusterStage, assignClusters, hk, Except.map]⟩
  · intro h
    simp [assignClusters, h]

/-- Witness for C4: two vectors and `k = 3` fail with the configuration
error. -/
theorem cluster_assigner_config_error_witness :
    wVectors.length < 3 ∧ assignClusters wKmeans wVectors 3 = .error .invalidK :=
  ⟨by decide, ((cluster_assigner_config_error wKmeans wVectors 3).1 (by decide)).1⟩

/-- Helper: `List.lookup` returns `none` when the key is not among the
stored keys. -/
theorem lookup_eq_none_of_not_mem_keys {labels : List (Nat × String)} {t : Nat}
    (h : t ∉ labels.map Prod.fst) : labels.lookup t = none := by
  induction labels with
  | nil => rfl
  | cons p rest ih =>
    simp only [List.map_cons, List.mem_cons, not_or] at h
    obtain ⟨h1, h2⟩ := h
    simp [List.lookup, beq_false_of_ne h1, ih h2]

/-- C6: joining topic labels onto the frame is total: the output has one row
per input row, every row's `topic_label` field is the label-map lookup of its
topic, and a topic id absent from the label map yields the `none` sentinel
(pandas `NaN`), never a crash or a missing field. -/
theorem result_assembler_sentinel (df : List Row) (labels : List (Nat × String)) :
    (assignTopicLabels df labels).length = df.length
    ∧ (∀ lr ∈ assignTopicLabels df labels, lr.topic_label = labels.lookup lr.topic)
    ∧ (∀ lr ∈ assignTopicLabels df labels,
        lr.topic ∉ labels.map Prod.fst → lr.topic_label = none) := by
  refine ⟨List.length_map _ _, ?_, ?_⟩
  · intro lr hlr
    obtain ⟨r, _, rfl⟩ := List.mem_map.mp hlr
    rfl
  · intro lr hlr hnot
    obtain ⟨r, _, rfl⟩ := List.mem_map.mp hlr
    exact lookup_eq_none_of_not_mem_keys hnot

/-- Witness for C6: the row in topic 1, which has no entry in the label map,
gets the `none` sentinel. -/
theorem result_assembler_sentinel_witness :
    (⟨"street food fest", "/r/delhi/p3", 1, none⟩ : LabeledRow) ∈ assignTopicLabels wDf wLabels
    ∧ (1 : Nat) ∉ wLabels.map Prod.fst
    ∧ (⟨"street food fest", "/r/delhi/p3", 1, none⟩ : LabeledRow).topic_label = none :=
  ⟨by decide, by decide,
    (result_assembler_sentinel wDf wLabels).2.2 ⟨"street food fest", "/r/delhi/p3", 1, none⟩
      (by decide) (by decide)⟩

/-- Helper: one successful attempt ends the retry loop with the stripped
response text. -/
theorem labelLoop_success {service : Nat → ServiceResp} {retries i delay : Nat}
    {waits : List Nat} {t : String} (h : service i = .success t) :
    labelLoop service retries i delay waits = ⟨.ok (pyStrip t), i + 1, waits⟩ := by
  rw [labelLoop, h]

/-- Helper: a rate-limited attempt that is not the last one sleeps `delay`
seconds, doubles the delay and retries. -/
theorem labelLoop_rl_step {service : Nat → ServiceResp} {retries i delay : Nat}
    {waits : List Nat} (h : service i = .rateLimited) (hi : i < retries - 1) :
    labelLoop service retries i delay waits
      = labelLoop service retries (i + 1) (delay * 2) (waits ++ [delay]) := by
  rw [labelLoop, h]
  simp [hi]

/-- Helper: a rate-limited final attempt re-raises the rate-limit error. -/
theorem labelLoop_rl_last {service : Nat → ServiceResp} {retries i delay : Nat}
    {waits : List Nat} (h : service i = .rateLimited) (hi : ¬i < retries - 1) :
    labelLoop service retries i delay waits = ⟨.error .rateLimit, i + 1, waits⟩ := by
  rw [labelLoop, h]
  simp [hi]

/-- Helper: any non-rate-limit failure re-raises immediately. -/
theorem labelLoop_other {service : Nat → ServiceResp} {retries i delay : Nat}
    {waits : List Nat} {m : String} (h : service i = .otherError m) :
    labelLoop service retries i delay waits = ⟨.error (.other m), i + 1, waits⟩ := by
  rw [labelLoop, h]

/-- C2: with the service rate-limiting every attempt, `label_topic` surfaces
the rate-limit error after exactly 5 attempts with backoff sleeps of
5, 10, 20 and 40 seconds between consecutive attempts; with rate limiting on
attempts 1-4 and success on attempt 5, it returns the stripped response
text. -/
theorem label_topic_retry_spec (s₁ s₂ : Nat → ServiceResp) (t : String)
    (h₁ : ∀ i, i < 5 → s₁ i = .rateLimited)
    (h₂ : ∀ i, i < 4 → s₂ i = .rateLimited) (h₂ok : s₂ 4 = .success t) :
    label_topic s₁ = ⟨.error .rateLimit, 5, [5, 10, 20, 40]⟩
    ∧ label_topic s₂ = ⟨.ok (pyStrip t), 5, [5, 10, 20, 40]⟩ := by
  constructor
  · show labelLoop s₁ 5 0 5 [] = _
    rw [labelLoop_rl_step (h₁ 0 (by omega)) (by omega),
      labelLoop_rl_step (h₁ 1 (by omega)) (by omega),
      labelLoop_rl_step (h₁ 2 (by omega)) (by omega),
      labelLoop_rl_step (h₁ 3 (by omega)) (by omega),
      labelLoop_rl_last (h₁ 4 (by omega)) (by omega)]
    rfl
  · show labelLoop s₂ 5 0 5 [] = _
    rw [labelLoop_rl_step (h₂ 0 (by omega)) (by omega),
      labelLoop_rl_step (h₂ 1 (by omega)) (by omega),
      labelLoop_rl_step (h₂ 2 (by omega)) (by omega),
      labelLoop_rl_step (h₂ 3 (by omega)) (by omega),
      labelLoop_success h₂ok]
    rfl

/-- Witness for C2: a concrete always-rate-limited service and a concrete
succeed-on-attempt-5 service. -/
theorem label_topic_retry_spec_witness :
    (∀ i, i < 5 → wSvcAllRL i = .rateLimited)
    ∧ (∀ i, i < 4 → wSvcLateOk i = .rateLimited)
    ∧ wSvcLateOk 4 = .success " Delhi Metro "
    ∧ label_topic wSvcAllRL = ⟨.error .rateLimit, 5, [5, 10, 20, 40]⟩
    ∧ label_topic wSvcLateOk = ⟨.ok (pyStrip " Delhi Metro "), 5, [5, 10, 20, 40]⟩ :=
  ⟨by decide, by decide, by decide,
    (label_topic_retry_spec wSvcAllRL wSvcLateOk " Delhi Metro "
      (by decide) (by decide) (by decide)).1,
    (label_topic_retry_spec wSvcAllRL wSvcLateOk " Delhi Metro "
      (by decide) (by decide) (by decide)).2⟩

/-- C3: if the service rate-limits the first `j` attempts and then fails with
a non-rate-limit error on attempt `j + 1`, the call fails right there with
that error — attempt `j + 1` is the last one, and only the `j` backoff sleeps
that preceded the failing attempt ever happened (no retry after the
failure). -/
theorem label_topic_no_retry_on_other (service : Nat → ServiceResp) (j : Nat)
    (m : String) (hj : j < 5) (hrl : ∀ i, i < j → service i = .rateLimited)
    (hfail : service j = .otherError m) :
    label_topic service
      = ⟨.error (.other m), j + 1, (List.range j).map (fun k => 5 * 2 ^ k)⟩ := by
  interval_cases j
  · show labelLoop service 5 0 5 [] = _
    rw [labelLoop_other hfail]
    rfl
  · show labelLoop service 5 0 5 [] = _
    rw [labelLoop_rl_step (hrl 0 (by omega)) (by omega), labelLoop_other hfail]
    rfl
  · show labelLoop service 5 0 5 [] = _
    rw [labelLoop_rl_step (hrl 0 (by omega)) (by omega),
      labelLoop_rl_step (hrl 1 (by omega)) (by omega), labelLoop_other hfail]
    rfl
  · show labelLoop service 5 0 5 [] = _
    rw [labelLoop_rl_step (hrl 0 (by omega)) (by omega),
      labelLoop_rl_step (hrl 1 (by omega)) (by omega),
      labelLoop_rl_step (hrl 2 (by omega)) (by omega), labelLoop_other hfail]
    rfl
  · show labelLoop service 5 0 5 [] = _
    rw [labelLoop_rl_step (hrl 0 (by omega)) (by omega),
      labelLoop_rl_step (hrl 1 (by omega)) (by omega),
      labelLoop_rl_step (hrl 2 (by omega)) (by omega),
      labelLoop_rl_step (hrl 3 (by omega)) (by omega), labelLoop_other hfail]
    rfl

/-- Witness for C3: rate limits on attempts 1-2, an auth failure on
attempt 3: the call fails on attempt 3 with the auth error. -/
theorem label_topic_no_retry_on_other_witness :
    (2 < 5 ∧ (∀ i, i < 2 → wSvcAuthFail i = .rateLimited)
      ∧ wSvcAuthFail 2 = .otherError "auth")
    ∧ label_topic wSvcAuthFail
        = ⟨.error (.other "auth"), 2 + 1, (List.range 2).map (fun k => 5 * 2 ^ k)⟩ :=
  ⟨⟨by decide, by decide, by decide⟩,
    label_topic_no_retry_on_other wSvcAuthFail 2 "auth" (by decide) (by decide) (by decide)⟩

/-- C8: run as a computation over the shared pipeline state, the
representative selector returns its selection and leaves the post frame and
the embedding matrix exactly as they were: it reads but never mutates. -/
theorem get_representative_posts_frame (cluster_id max_posts : Nat) (s : PipelineState) :
    (get_representative_posts_st cluster_id max_posts).run s
      = (get_representative_posts cluster_id s.embeddings s.df max_posts, s) := by
  simp only [get_representative_posts_st, get_representative_posts, StateT.run, bind,
    StateT.bind, get, getThe, MonadStateOf.get, StateT.get, pure, StateT.pure]
  split <;> rfl

/-- Helper: counting mask hits over the row/vector zip equals counting them
over the rows, provided the frame and the embedding matrix have one entry
per post. -/
theorem countP_zip_fst (cid : Nat) :
    ∀ (df : List Row) (emb : List Vec), df.length = emb.length →
      (df.zip emb).countP (fun p => p.1.topic == cid)
        = df.countP (fun r => r.topic == cid) := by
  intro df
  induction df with
  | nil => intro emb _; simp
  | cons r rest ih =>
    intro emb h
    cases emb with
    | nil => simp at h
    | cons v vrest =>
      simp only [List.zip_cons_cons, List.countP_cons]
      rw [ih vrest (by simpa using h)]

/-- Helper: the number of member rows of a cluster is the mask count. -/
theorem clusterPairs_length (cid : Nat) (emb : List Vec) (df : List Row)
    (h : df.length = emb.length) :
    (clusterPairs cid emb df).length = df.countP (fun r => r.topic == cid) := by
  rw [clusterPairs, ← List.countP_eq_length_filter, countP_zip_fst cid df emb h]

/-- Helper: one distance per member vector. -/
theorem clusterDists_length (cid : Nat) (emb : List Vec) (df : List Row) :
    (clusterDists cid emb df).length = (clusterPairs cid emb df).length := by
  simp [clusterDists]

/-- Helper: `argsort d` is a permutation of the index range of `d`. -/
theorem argsort_perm (d : List ℚ) : List.Perm (argsort d) (List.range d.length) :=
  List.perm_insertionSort _ _

/-- Helper: `argsort` preserves the number of indices. -/
theorem length_argsort (d : List ℚ) : (argsort d).length = d.length := by
  simpa using (argsort_perm d).length_eq

/-- Helper: every index produced by `argsort d` is a valid position in `d`. -/
theorem mem_argsort_lt (d : List ℚ) {i : Nat} (h : i ∈ argsort d) : i < d.length := by
  have := (argsort_perm d).mem_iff.mp h
  simpa using this

/-- Helper: `argsort d` arranges the indices so the stored keys ascend. -/
theorem sorted_argsort (d : List ℚ) :
    List.Sorted (fun i j => d.getD i 0 ≤ d.getD j 0) (argsort d) := by
  haveI : IsTotal Nat (fun i j => d.getD i 0 ≤ d.getD j 0) := ⟨fun _ _ => le_total _ _⟩
  haveI : IsTrans Nat (fun i j => d.getD i 0 ≤ d.getD j 0) :=
    ⟨fun _ _ _ hab hbc => le_trans hab hbc⟩
  exact List.sorted_insertionSort _ _

/-- Helper: along the first `max_posts` positions of `argsort d`, the stored
keys (the squared centroid distances) are non-decreasing. -/
theorem sorted_selected_sqDists (d : List ℚ) (mp : Nat) :
    List.Sorted (· ≤ ·) (((argsort d).take mp).map (fun i => d.getD i 0)) := by
  have h2 : List.Sorted (fun i j => d.getD i 0 ≤ d.getD j 0) ((argsort d).take mp) :=
    List.Pairwise.sublist (List.take_sublist _ _) (sorted_argsort d)
  exact h2.map _ (fun _ _ hab => hab)

/-- Helper: the same selection is also non-decreasing in genuine Euclidean
distance (the square root of the squared distance), since the square root is
monotone. -/
theorem sorted_selected_dists (d : List ℚ) (mp : Nat) :
    List.Sorted (· ≤ ·)
      (((argsort d).take mp).map (fun i => Real.sqrt ((d.getD i 0 : ℚ) : ℝ))) := by
  have h2 : List.Sorted (fun i j => d.getD i 0 ≤ d.getD j 0) ((argsort d).take mp) :=
    List.Pairwise.sublist (List.take_sublist _ _) (sorted_argsort d)
  exact h2.map _ (fun _ _ hab => Real.sqrt_le_sqrt (by exact_mod_cast hab))

/-- Helper: the length of the representative list is the member count capped
at `max_posts`. -/
theorem length_get_representative_posts (cid mp : Nat) (emb : List Vec) (df : List Row)
    (h : df.length = emb.length) :
    (get_representative_posts cid emb df mp).length
      = min (df.countP (fun r => r.topic == cid)) mp := by
  have hp := clusterPairs_length cid emb df h
  rw [get_representative_posts]
  by_cases hz : ((clusterPairs cid emb df).map (fun p => p.1.text)).length = 0
  · rw [if_pos hz]
    rw [List.length_map] at hz
    simp only [List.length_nil]
    omega
  · rw [if_neg hz]
    rw [List.length_map] at hz
    rw [List.length_map, List.length_take, length_argsort, clusterDists_length, hp]
    omega

/-- C1: the representative selector returns exactly `min(N, max_posts)`
entries, where `N` is the number of posts assigned to the topic; the
selection walks the member indices in non-decreasing Euclidean distance to
the topic centroid (stated both for the squared distances the code ranks by
— see `sorted_selected_sqDists` — and, here, for their square roots, the
genuine Euclidean distances); every emitted text is at most 300 characters;
and an empty topic yields the empty list, not an error. -/
theorem representative_selector_spec (cluster_id max_posts : Nat) (df : List Row)
    (embeddings : List Vec) (hlen : df.length = embeddings.length) :
    (get_representative_posts cluster_id embeddings df max_posts).length
      = min (df.countP (fun r => r.topic == cluster_id)) max_posts
    ∧ List.Sorted (· ≤ ·)
        (((argsort (clusterDists cluster_id embeddings df)).take max_posts).map
          (fun i => Real.sqrt (((clusterDists cluster_id embeddings df).getD i 0 : ℚ) : ℝ)))
    ∧ (∀ e ∈ get_representative_posts cluster_id embeddings df max_posts,
        e.text.length ≤ 300)
    ∧ (df.countP (fun r => r.topic == cluster_id) = 0 →
        get_representative_posts cluster_id embeddings df max_posts = []) := by
  refine ⟨length_get_representative_posts cluster_id max_posts embeddings df hlen,
    sorted_selected_dists _ _, ?_, ?_⟩
  · intro e he
    rw [get_representative_posts] at he
    by_cases hz :
        ((clusterPairs cluster_id embeddings df).map (fun p => p.1.text)).length = 0
    · rw [if_pos hz] at he
      simp at he
    · rw [if_neg hz] at he
      obtain ⟨i, _, rfl⟩ := List.mem_map.mp he
      show (takeChars _ 300).length ≤ 300
      have hlen2 : ∀ s : String, (takeChars s 300).length = (s.data.take 300).length :=
        fun _ => rfl
      rw [hlen2, List.length_take]
      omega
  · intro h0
    have hl := length_get_representative_posts cluster_id max_posts embeddings df hlen
    rw [h0] at hl
    simp only [Nat.zero_min] at hl
    exact List.length_eq_zero.mp hl

/-- Witness for C1: a frame of three posts with aligned embeddings; topic 0
has two members. -/
theorem representative_selector_spec_witness :
    wDf.length = wEmb.length
    ∧ ((get_representative_posts 0 wEmb wDf 5).length
        = min (wDf.countP (fun r => r.topic == 0)) 5
      ∧ List.Sorted (· ≤ ·)
          (((argsort (clusterDists 0 wEmb wDf)).take 5).map
            (fun i => Real.sqrt (((clusterDists 0 wEmb wDf).getD i 0 : ℚ) : ℝ)))
      ∧ (∀ e ∈ get_representative_posts 0 wEmb wDf 5, e.text.length ≤ 300)
      ∧ (wDf.countP (fun r => r.topic == 0) = 0 →
          get_representative_posts 0 wEmb wDf 5 = [])) :=
  ⟨rfl, representative_selector_spec 0 5 wDf wEmb rfl⟩

/-- C9: every representative entry's permalink is the string
`"https://reddit.com"` followed by the stored permalink of some post of the
selected topic; the raw permalink is never emitted without the site. -/
theorem representative_permalink_form (cluster_id max_posts : Nat) (df : List Row)
    (embeddings : List Vec) :
    ∀ e ∈ get_representative_posts cluster_id embeddings df max_posts,
      ∃ r, r ∈ df ∧ r.topic = cluster_id
        ∧ e.permalink = "https://reddit.com" ++ r.permalink := by
  intro e he
  rw [get_representative_posts] at he
  by_cases hz :
      ((clusterPairs cluster_id embeddings df).map (fun p => p.1.text)).length = 0
  · rw [if_pos hz] at he
    simp at he
  · rw [if_neg hz] at he
    obtain ⟨i, hi, rfl⟩ := List.mem_map.mp he
    have h1 : i ∈ argsort (clusterDists cluster_id embeddings df) :=
      List.mem_of_mem_take hi
    have hilt : i < (clusterPairs cluster_id embeddings df).length := by
      have h2 := mem_argsort_lt _ h1
      rwa [clusterDists_length] at h2
    have hget :
        ((clusterPairs cluster_id embeddings df).map (fun p => p.1.permalink)).getD i ""
          = ((clusterPairs cluster_id embeddings df).get ⟨i, hilt⟩).1.permalink := by
      rw [List.getD_eq_getElem?_getD, List.getElem?_map, List.getElem?_eq_getElem hilt]
      simp
    have hmem : (clusterPairs cluster_id embeddings df).get ⟨i, hilt⟩
        ∈ clusterPairs cluster_id embeddings df := List.get_mem _ _ _
    rcases hq : (clusterPairs cluster_id embeddings df).get ⟨i, hilt⟩ with ⟨r, v⟩
    rw [hq] at hmem hget
    rw [clusterPairs] at hmem
    obtain ⟨hzip, hpred⟩ := List.mem_filter.mp hmem
    refine ⟨r, (List.of_mem_zip hzip).1, by simpa using hpred, ?_⟩
    show "https://reddit.com" ++ _ = _
    rw [hget]

/-- Witness for C9: topic 1 has a single member, whose permalink is emitted
with the site prepended. -/
theorem representative_permalink_form_witness :
    (⟨"street food fest", "https://reddit.com/r/delhi/p3"⟩ : RepEntry)
        ∈ get_representative_posts 1 wEmb wDf 5
    ∧ ∃ r, r ∈ wDf ∧ r.topic = 1
        ∧ ("https://reddit.com/r/delhi/p3" : String) = "https://reddit.com" ++ r.permalink :=
  ⟨by decide,
    representative_permalink_form 1 5 wDf wEmb
      ⟨"street food fest", "https://reddit.com/r/delhi/p3"⟩ (by decide)⟩

/-- C10: the serialized topic-representatives map has integer keys that are
exactly the distinct topic ids of the filtered frame (no duplicates, and
membership matches the `topic` column), and every stored value is a
non-empty representative list — an empty topic contributes no key at all. -/
theorem topic_representatives_clean_spec (df : List Row) (embeddings : List Vec)
    (hlen : df.length = embeddings.length) :
    ((topic_representatives_clean (topic_representatives df embeddings)).map Prod.fst).Nodup
    ∧ (∀ t : Nat,
        (t : Int) ∈ (topic_representatives_clean
            (topic_representatives df embeddings)).map Prod.fst
          ↔ t ∈ df.map (fun r => r.topic))
    ∧ ∀ p ∈ topic_representatives_clean (topic_representatives df embeddings),
        p.2 ≠ [] := by
  have hkeys : (topic_representatives_clean (topic_representatives df embeddings)).map Prod.fst
      = (topicsOf df).map (fun cid : Nat => (cid : Int)) := by
    rw [topic_representatives_clean, topic_representatives, List.map_map, List.map_map]
    rfl
  have hnodupTopics : (topicsOf df).Nodup :=
    (List.perm_insertionSort _ _).nodup_iff.mpr (List.nodup_dedup _)
  refine ⟨?_, ?_, ?_⟩
  · rw [hkeys]
    exact hnodupTopics.map (fun a b hab => by exact_mod_cast hab)
  · intro t
    rw [hkeys]
    constructor
    · intro ht
      obtain ⟨c, hc, hcast⟩ := List.mem_map.mp ht
      have hct : c = t := by exact_mod_cast hcast
      rw [← hct]
      have htd : c ∈ (df.map (fun r => r.topic)).dedup := by
        simpa [topicsOf] using hc
      exact List.mem_dedup.mp htd
    · intro ht
      refine List.mem_map.mpr ⟨t, ?_, rfl⟩
      simp only [topicsOf, List.mem_insertionSort, List.mem_dedup]
      exact ht
  · intro p hp
    obtain ⟨q, hq, rfl⟩ := List.mem_map.mp hp
    obtain ⟨cid, hcid, rfl⟩ := List.mem_map.mp hq
    have hcidmem : cid ∈ df.map (fun r => r.topic) := by
      have : cid ∈ (df.map (fun r => r.topic)).dedup := by
        simpa [topicsOf] using hcid
      exact List.mem_dedup.mp this
    obtain ⟨r, hr, hrt⟩ := List.mem_map.mp hcidmem
    have hpos : 0 < df.countP (fun row => row.topic == cid) :=
      List.countP_pos_iff.mpr ⟨r, hr, by simp [hrt]⟩
    have hlen5 := length_get_representative_posts cid 5 embeddings df hlen
    intro hc
    have hzero : (get_representative_posts cid embeddings df 5).length = 0 := by
      rw [show (cid, get_representative_posts cid embeddings df 5).2
            = get_representative_posts cid embeddings df 5 from rfl] at hc
      rw [hc]
      rfl
    rw [hlen5] at hzero
    omega

/-- Witness for C10: the three-row frame with topics 0 and 1. -/
theorem topic_representatives_clean_spec_witness :
    wDf.length = wEmb.length
    ∧ (((topic_representatives_clean (topic_representatives wDf wEmb)).map Prod.fst).Nodup
      ∧ (∀ t : Nat,
          (t : Int) ∈ (topic_representatives_clean
              (topic_representatives wDf wEmb)).map Prod.fst
            ↔ t ∈ wDf.map (fun r => r.topic))
      ∧ ∀ p ∈ topic_representatives_clean (topic_representatives wDf wEmb), p.2 ≠ []) :=
  ⟨rfl, topic_representatives_clean_spec wDf wEmb rfl⟩

end RedditTrend
